import Mathlib

/-!
Verification of the iMessage Legacy channel plugin (src/setup.js, the
full-featured plugin: the third document in the file, lines 592-1145).

The JavaScript source is shallowly embedded: strings are Lean String,
JS string helpers are re-implemented over List Char (structural recursion,
so that concrete witnesses evaluate by kernel reduction), SQLite result
rows become a Lean structure, and the stateful poll loop body becomes a
fold over the fetched batch with explicit state passing.  Effects that the
claims do not depend on (logging, timestamps, random MessageSid suffixes)
are omitted; external lookups performed inside the loop (attachment file
scan, contact-name resolution outcome) are passed in as a PollEnv record.
-/

set_option maxRecDepth 4000

/-- Character class used by the JS regexes: digits and the plus sign.
Mirrors the character class inside replace(/[^\d+]/g, "") at line 656. -/
def isPhoneChar (c : Char) : Bool := c.isDigit || c = '+'

/-- JS String.prototype.startsWith, over the underlying character lists. -/
def jsStartsWith (s pre : String) : Bool := pre.data.isPrefixOf s.data

/-- JS String.prototype.endsWith (used to model the SQL LIKE with a percent
prefix in the contact lookup). -/
def jsEndsWith (s suf : String) : Bool := suf.data.isSuffixOf s.data

/-- Truthiness of the JS expression s.trim(): false exactly when every
character of s is whitespace (so the trimmed string is empty). -/
def isBlank (s : String) : Bool := s.data.all Char.isWhitespace

/-- JS a || b for a nullable string a: null and the empty string are falsy. -/
def jsOr (a : Option String) (b : String) : String :=
  match a with
  | some s => if s = "" then b else s
  | none => b

/-- Branch ladder of normalizePhone (setup.js lines 657-660) applied to the
already-stripped character list: keep a string already carrying a plus,
treat ten digits as domestic, prefix eleven digits led by a one, and prefix
everything else verbatim.  JS startsWith of the one-character "+" is the
head test. -/
def normalizePhoneBranch (n : List Char) : List Char :=
  if n.head? = some '+' then n
  else if n.length = 10 then '+' :: '1' :: n
  else if n.length = 11 ∧ n.head? = some '1' then '+' :: n
  else '+' :: n

/-- Core of normalizePhone (setup.js lines 654-661) on the character list of
a non-empty input: strip every character that is not a digit or a plus
(replace of the negated class with the empty string), then apply the branch
ladder. -/
def normalizePhoneList (l : List Char) : List Char :=
  normalizePhoneBranch (l.filter isPhoneChar)

/-- normalizePhone (setup.js lines 654-661).  A falsy input (the empty
string) yields null, embedded as none. -/
def normalizePhone (phone : String) : Option String :=
  if phone = "" then none
  else some (normalizePhoneList phone.data).asString

/-- isAllowed (setup.js lines 663-671): reject a falsy sender or an empty
list, accept everyone on a literal "*" entry, otherwise accept on an exact
match or a match of the normalized forms. -/
def isAllowed (sender : String) (allowFrom : List String) : Bool :=
  if sender = "" ∨ allowFrom = [] then false
  else if allowFrom.contains "*" then true
  else allowFrom.any fun a =>
    a = sender ∨ (normalizePhone sender).isSome ∧ normalizePhone a = normalizePhone sender

/-- TAPBACK_TYPES (setup.js lines 640-648).  The string values are written
with the exact code points stored in the source file (the file holds
mojibake renderings of the emoji); keys 3000-3005 are absent, as are all
other numbers. -/
def TAPBACK_TYPES (t : Nat) : Option String :=
  if t = 2000 then some "â¤ï¸"
  else if t = 2001 then some "ðŸ‘"
  else if t = 2002 then some "ðŸ‘Ž"
  else if t = 2003 then some "ðŸ˜‚"
  else if t = 2004 then some "â€¼ï¸"
  else if t = 2005 then some "â“"
  else none

/-- One row of the SELECT in poll (setup.js lines 996-1008): message columns
joined with handle and chat.  Nullable SQL columns are Option; the GROUP BY
on the row id and the two unused reply columns (reply_to_guid,
thread_originator_guid, selected but never read by the loop) are not
represented. -/
structure Msg where
  rowid : Nat
  guid : String
  text : Option String
  is_from_me : Nat
  associated_message_type : Nat
  associated_message_guid : Option String
  cache_has_attachments : Bool
  sender : Option String
  chat_identifier : Option String
  style : Option Nat
deriving DecidableEq, Repr

/-- Persistent poller state (setup.js line 954): the watermark and the
bounded dedup window. -/
structure PollState where
  lastRowId : Nat
  processedIds : List Nat
deriving DecidableEq, Repr

/-- Environment of one poll tick: the message table (used both for the
batch query and for getReplyContext lookups), the attachment paths found on
disk for a row id (getAttachments after its existsSync filter), and the
outcome of contact-name resolution for a sender. -/
structure PollEnv where
  store : List Msg
  attachments : Nat → List String
  resolveName : String → Option String

/-- Guid cleanup at the head of getReplyContext (setup.js lines 788-790):
take the part after the last slash, then strip a leading "bp:". -/
def stripGuid (g : String) : String :=
  let g1 := if g.data.contains '/' then ((g.splitOn "/").getLastD g) else g
  if jsStartsWith g1 "bp:" then (g1.data.drop 3).asString else g1

/-- Text of the original message for a reply or tapback target, following
getReplyContext (setup.js lines 784-818) restricted to the field the poll
loop reads: null for a falsy guid, for a missed lookup, and for an original
whose text is falsy. -/
def getReplyContextText (store : List Msg) (replyToGuid : Option String) : Option String :=
  match replyToGuid with
  | none => none
  | some g =>
    if g = "" then none
    else
      match store.find? (fun m => m.guid = stripGuid g) with
      | none => none
      | some original =>
        match original.text with
        | none => none
        | some t => if t = "" then none else some t

/-- Tapback body string built at setup.js line 1026. -/
def tapbackBody (store : List Msg) (m : Msg) (emoji : String) : String :=
  emoji ++ " reacted to: \"" ++ (getReplyContextText store m.associated_message_guid).getD "message" ++ "\""

/-- Truthiness of the JS expression msg.text?.trim(): blank when the column
is null or all-whitespace (the skip test at setup.js line 1030). -/
def jsTextBlank : Option String → Bool
  | none => true
  | some s => isBlank s

/-- Watermark update at setup.js line 1012, executed for every fetched row
before any filtering. -/
def watermarkStep (st : PollState) (m : Msg) : PollState :=
  { st with lastRowId := max st.lastRowId m.rowid }

/-- Body of the first for-loop of poll (setup.js lines 1011-1033) for one
row: advance the watermark, then run the sender, allowlist and dedup
skips, then classify tapbacks and drop contentless rows; survivors are
appended to toProcess together with their tapbackText (the no-content test
at line 1030 never skips a row whose tapbackText was just set, because that
string is never empty, so the tapback branch appends directly). -/
def processRow (allowFrom : List String) (includeTapbacks : Bool) (store : List Msg)
    (acc : PollState × List (Msg × Option String)) (m : Msg) :
    PollState × List (Msg × Option String) :=
  let st := watermarkStep acc.1 m
  match m.sender with
  | none => (st, acc.2)
  | some s =>
    if s = "" then (st, acc.2)
    else if isAllowed s allowFrom = false then (st, acc.2)
    else if st.processedIds.contains m.rowid then (st, acc.2)
    else
      let st2 := { st with processedIds := st.processedIds ++ [m.rowid] }
      if 2000 ≤ m.associated_message_type ∧ m.associated_message_type < 4000 then
        if includeTapbacks = false then (st2, acc.2)
        else
          match TAPBACK_TYPES m.associated_message_type with
          | none => (st2, acc.2)
          | some emoji =>
            if 3000 ≤ m.associated_message_type then (st2, acc.2)
            else (st2, acc.2 ++ [(m, some (tapbackBody store m emoji))])
      else
        if jsTextBlank m.text = true ∧ m.cache_has_attachments = false then (st2, acc.2)
        else (st2, acc.2 ++ [(m, none)])

/-- Window bound applied once per batch (setup.js line 1035): keep only the
most recent 100 processed ids (JS slice of minus 100). -/
def trimProcessed (ids : List Nat) : List Nat :=
  if ids.length > 100 then ids.drop (ids.length - 100) else ids

/-- First loop of poll over a fetched batch plus the window trim: the fold
of processRow over the rows in order, then the slice at line 1035. -/
def scanBatch (allowFrom : List String) (includeTapbacks : Bool) (store : List Msg)
    (st : PollState) (msgs : List Msg) : PollState × List (Msg × Option String) :=
  let r := msgs.foldl (processRow allowFrom includeTapbacks store) (st, [])
  ({ r.1 with processedIds := trimProcessed r.1.processedIds }, r.2)

/-- The normalized inbound unit handed to finalizeInboundContext (setup.js
lines 1073-1097), restricted to the deterministic fields (MessageSid and
Timestamp come from Date.now and Math.random and are omitted); rowid records
which table row the event was built from. -/
structure InboundEvent where
  rowid : Nat
  body : String
  rawBody : String
  fromId : String
  toId : String
  sessionKey : String
  chatType : String
  conversationLabel : String
  senderName : String
  senderId : String
  mediaPaths : List String
deriving DecidableEq, Repr

/-- Group detection at setup.js line 1039: style 43 or a chat identifier
beginning with "chat" (optional chaining makes a null identifier falsy). -/
def msgIsGroup (m : Msg) : Bool :=
  m.style = some 43 || (match m.chat_identifier with
    | some c => jsStartsWith c "chat"
    | none => false)

/-- Reply target chosen at setup.js line 1040 (for a direct chat the sender
itself; the getD of the group arm is unreachable for rows that pass the
sender filter). -/
def msgChatId (m : Msg) : String :=
  if msgIsGroup m then m.chat_identifier.getD "" else m.sender.getD ""

/-- Body selection at setup.js line 1061: tapback text, else column text,
else the empty string, with JS falsiness at each step. -/
def msgBodyText (p : Msg × Option String) : String :=
  jsOr p.2 (jsOr p.1.text "")

/-- Attachment paths gathered at setup.js lines 1047-1058: getAttachments
is consulted only when the row advertises attachments. -/
def msgMediaPaths (env : PollEnv) (m : Msg) : List String :=
  if m.cache_has_attachments then env.attachments m.rowid else []

/-- Resolved display name at setup.js lines 1043-1044: the contact-name
lookup when enabled, falling back to the raw sender. -/
def msgSenderName (env : PollEnv) (resolveNames : Bool) (m : Msg) : String :=
  jsOr (if resolveNames then env.resolveName (m.sender.getD "") else none) (m.sender.getD "")

/-- The context record passed to finalizeInboundContext (setup.js lines
1068-1097), deterministic fields only. -/
def eventOf (env : PollEnv) (resolveNames : Bool) (p : Msg × Option String) : InboundEvent :=
  let m := p.1
  { rowid := m.rowid
    body := msgBodyText p
    rawBody := m.text.getD ""
    fromId := if msgIsGroup m then "imessage-legacy:group:" ++ msgChatId m
              else "imessage-legacy:" ++ m.sender.getD ""
    toId := m.sender.getD ""
    sessionKey := if msgIsGroup m then "agent:main:imessage-legacy:group:" ++ msgChatId m
                  else "agent:main:main"
    chatType := if msgIsGroup m then "group" else "direct"
    conversationLabel := msgSenderName env resolveNames m
    senderName := msgSenderName env resolveNames m
    senderId := m.sender.getD ""
    mediaPaths := msgMediaPaths env m }

/-- Second loop of poll for one toProcess entry (setup.js lines 1038-1097):
the no-content skip at line 1063, else one event. -/
def buildEvent (env : PollEnv) (resolveNames : Bool) (p : Msg × Option String) :
    Option InboundEvent :=
  if isBlank (msgBodyText p) = true ∧ msgMediaPaths env p.1 = [] then none
  else some (eventOf env resolveNames p)

/-- Both loops of poll over an already-fetched batch: the filtering scan
followed by event construction for the surviving rows. -/
def runBatch (env : PollEnv) (allowFrom : List String)
    (includeTapbacks resolveNames : Bool) (st : PollState) (msgs : List Msg) :
    List InboundEvent × PollState :=
  let r := scanBatch allowFrom includeTapbacks env.store st msgs
  (r.2.filterMap (buildEvent env resolveNames), r.1)

/-- SELECT MAX(ROWID) FROM message with the ?? 0 fallback (setup.js line
993): 0 for an empty table. -/
def storeMaxId (store : List Msg) : Nat :=
  store.foldl (fun acc m => max acc m.rowid) 0

/-- The batch query of poll (setup.js lines 996-1008): rows strictly beyond
the watermark that are not self-sent, at most 20 of them.  The store list is
taken in ROWID order, matching the ORDER BY. -/
def queryNewRows (store : List Msg) (lastRowId : Nat) : List Msg :=
  (store.filter fun m => lastRowId < m.rowid ∧ m.is_from_me = 0).take 20

/-- One poll tick (setup.js lines 982-1129) minus the arbiter check, which
is modelled separately: compare MAX(ROWID) against the watermark, and when
it is ahead fetch a batch and run both loops. -/
def pollTick (env : PollEnv) (allowFrom : List String)
    (includeTapbacks resolveNames : Bool) (st : PollState) :
    List InboundEvent × PollState :=
  if storeMaxId env.store > st.lastRowId then
    runBatch env allowFrom includeTapbacks resolveNames st (queryNewRows env.store st.lastRowId)
  else ([], st)

/-- Recognized per-account configuration, as produced by resolveAccount
(setup.js lines 871-882). -/
structure AccountConfig where
  pollIntervalMs : Nat
  dmPolicy : String
  allowFrom : List String
  includeTapbacks : Bool
  resolveContactNames : Bool
deriving DecidableEq, Repr

/-- Allowlist preprocessing in startAccount (setup.js line 923): each
configured entry is replaced by its normalization, falling back to the raw
entry when normalizePhone returns null. -/
def startAllowFrom (cfg : AccountConfig) : List String :=
  cfg.allowFrom.map fun s => (normalizePhone s).getD s

/-- One poll tick as configured by startAccount: the tick runs with the
preprocessed allowlist and the two boolean toggles; no other configuration
field reaches the loop. -/
def accountPollTick (cfg : AccountConfig) (env : PollEnv) (st : PollState) :
    List InboundEvent × PollState :=
  pollTick env (startAllowFrom cfg) cfg.includeTapbacks cfg.resolveContactNames st

/-- Shape of a successfully parsed state file: a JSON object whose two
fields may each be absent. -/
structure RawState where
  lastRowId : Option Nat
  processedIds : Option (List Nat)
deriving DecidableEq, Repr

/-- State initialization in startAccount (setup.js lines 954-960).  The
argument parsed is none when the file is missing or JSON.parse threw (the
empty catch keeps the default, so neither is fatal); absent fields fall back
to the defaults, and a zero-or-absent lastRowId is replaced by the current
MAX(ROWID) of the store. -/
def loadState (parsed : Option RawState) (storeMax : Nat) : PollState :=
  let st : PollState :=
    match parsed with
    | none => { lastRowId := 0, processedIds := [] }
    | some r => { lastRowId := r.lastRowId.getD 0, processedIds := r.processedIds.getD [] }
  if st.lastRowId = 0 then { st with lastRowId := storeMax } else st

/-- A sequence of poll cycles, each with its own environment, allowlist and
toggles, threaded through the state. -/
def runCycles (cycles : List (PollEnv × List String × Bool × Bool)) (st : PollState) :
    PollState :=
  cycles.foldl (fun s c => (pollTick c.1 c.2.1 c.2.2.1 c.2.2.2 s).2) st

/-- Conditions that every entry appended to toProcess by the first loop of
poll satisfies: a truthy sender that passed the allowlist, and either a
kept add-tapback with its rendered body, or a row outside the tapback range
carrying no tapback text. -/
def RowCond (allowFrom : List String) (includeTapbacks : Bool) (store : List Msg)
    (p : Msg × Option String) : Prop :=
  (∃ s, p.1.sender = some s ∧ s ≠ "" ∧ isAllowed s allowFrom = true) ∧
  ((2000 ≤ p.1.associated_message_type ∧ p.1.associated_message_type < 4000 ∧
      includeTapbacks = true ∧ p.1.associated_message_type < 3000 ∧
      ∃ emoji, TAPBACK_TYPES p.1.associated_message_type = some emoji ∧
        p.2 = some (tapbackBody store p.1 emoji)) ∨
   (¬(2000 ≤ p.1.associated_message_type ∧ p.1.associated_message_type < 4000) ∧
      p.2 = none))


/-- Contents of the ACTIVE_INSTANCE_FILE (setup.js line 617): none models a
missing or unreadable file, for which the read in isActiveInstance throws
and the catch returns false. -/
structure Lease where
  value : Option String
deriving DecidableEq, Repr

/-- claimActiveInstance (setup.js lines 619-628): the successful write path
unconditionally overwrites the lease with the claiming id. -/
def claimActiveInstance (_lease : Lease) (instanceId : String) : Lease :=
  { value := some instanceId }

/-- JS String.prototype.trim over the character list: drop whitespace from
both ends. -/
def jsTrim (s : String) : String :=
  (((s.data.dropWhile Char.isWhitespace).reverse.dropWhile Char.isWhitespace).reverse).asString

/-- isActiveInstance (setup.js lines 630-637): read the lease file, trim it,
and compare with the candidate id; a failed read is false. -/
def isActiveInstance (lease : Lease) (instanceId : String) : Bool :=
  match lease.value with
  | some active => jsTrim active = instanceId
  | none => false

/-- Per-instance runtime resources of startAccount (setup.js lines 927-980):
the running flag, the pending poll timer, the two database handles and the
contact cache, keyed by the instance id drawn at line 927. -/
structure Instance where
  instanceId : String
  running : Bool
  timerSet : Bool
  dbOpen : Bool
  contactsOpen : Bool
  contactCacheSize : Nat
deriving DecidableEq, Repr

/-- cleanup (setup.js lines 965-976): a second call is a no-op; otherwise
stop running, cancel the timer, close both database handles and clear the
contact cache. -/
def cleanup (i : Instance) : Instance :=
  if i.running = false then i
  else { i with running := false, timerSet := false, dbOpen := false,
                contactsOpen := false, contactCacheSize := 0 }

/-- Control skeleton of one poll tick (setup.js lines 982-990 and
1126-1128): a stopped instance does nothing, an instance that lost the
lease runs cleanup and schedules nothing, an active one polls and arms the
timer for the next tick.  The boolean reports whether a further tick was
scheduled. -/
def tickControl (lease : Lease) (i : Instance) : Instance × Bool :=
  if i.running = false then (i, false)
  else if isActiveInstance lease i.instanceId = false then (cleanup i, false)
  else ({ i with timerSet := true }, true)

/-- JSON.stringify rendering of a processedIds array under the two-space
indentation used at setup.js line 1036. -/
def jsonNatArray (l : List Nat) : String :=
  match l with
  | [] => "[]"
  | _ => "[\n    " ++ String.intercalate ",\n    " (l.map toString) ++ "\n  ]"

/-- JSON.stringify(state, null, 2) for the persisted state object of
setup.js line 1036. -/
def stateJson (st : PollState) : String :=
  "\x7b\n  \"lastRowId\": " ++ toString st.lastRowId ++
    ",\n  \"processedIds\": " ++ jsonNatArray st.processedIds ++ "\n\x7d"

/-- Crash-observable file contents during fs.writeFileSync(statePath, data)
at setup.js line 1036: the previous contents until the open, then every
prefix of the new contents, because the default write flag truncates the
file and the data is written sequentially. -/
def writeFileSyncCrashStates (old nw : String) : List String :=
  old :: (List.range (nw.data.length + 1)).map (fun k => (nw.data.take k).asString)

/-- Crash-observable states of the state-file persistence step: the direct
overwrite of the state path with the rendered JSON. -/
def persistCrashStates (old : String) (st : PollState) : List String :=
  writeFileSyncCrashStates old (stateJson st)

/-- One row of the join of ZABCDPHONENUMBER with ZABCDRECORD in the
AddressBook database (setup.js lines 706-712). -/
structure ContactRecord where
  zfullnumber : String
  zfirstname : Option String
  zlastname : Option String
  zorganization : Option String
deriving DecidableEq, Repr

/-- Trailing seven digits of the candidate number (setup.js line 705):
strip non-digits, then JS slice of minus seven. -/
def last7Digits (phone : String) : String :=
  let digits := phone.data.filter Char.isDigit
  (digits.drop (digits.length - 7)).asString

/-- The prepared SELECT with ZFULLNUMBER LIKE a percent-prefixed digit
suffix, LIMIT 1 (setup.js lines 706-712): first record whose stored number
ends with the digits. -/
def lookupContact (book : List ContactRecord) (digits : String) : Option ContactRecord :=
  book.find? fun r => jsEndsWith r.zfullnumber digits

/-- Display-name assembly at setup.js line 715: join the truthy ones of
first and last name with a space, fall back to the organization, and treat
a falsy result as no name. -/
def contactDisplayName (r : ContactRecord) : Option String :=
  let parts := ([r.zfirstname, r.zlastname].filterMap id).filter fun s => s ≠ ""
  let joined := String.intercalate " " parts
  let name := if joined = "" then r.zorganization.getD "" else joined
  if name = "" then none else some name

/-- Cache key of resolveContactName: the normalized number computed at
setup.js line 679. -/
def contactCacheKey (phone : String) : String := (normalizePhone phone).getD ""

/-- resolveContactName (setup.js lines 676-726) against an opened address
book: falsy phones resolve to null; the cache, keyed by the normalized
number, is consulted first; on a miss the book is queried by trailing-digit
suffix, and only a truthy resulting name is written back to the cache.  The
third component reports whether the address-book query ran; the lazy
opening of the contacts database handle is environmental and not modelled. -/
def resolveContactName (book : List ContactRecord) (cache : List (String × String))
    (phone : String) : Option String × List (String × String) × Bool :=
  if phone = "" then (none, cache, false)
  else
    match cache.lookup (contactCacheKey phone) with
    | some v => (some v, cache, false)
    | none =>
      match lookupContact book (last7Digits phone) with
      | none => (none, cache, true)
      | some r =>
        match contactDisplayName r with
        | some name => (some name, (contactCacheKey phone, name) :: cache, true)
        | none => (none, cache, true)

/-- Concrete message row used by the witness theorems: a plain direct text
from an allowlisted sender at row id 5. -/
def msgW : Msg :=
  { rowid := 5, guid := "g5", text := some "hi", is_from_me := 0,
    associated_message_type := 0, associated_message_guid := none,
    cache_has_attachments := false, sender := some "+15551234567",
    chat_identifier := some "+15551234567", style := none }

/-- Concrete follow-up row at id 6 used by the witness theorems. -/
def msg6W : Msg :=
  { rowid := 6, guid := "g6", text := some "yo", is_from_me := 0,
    associated_message_type := 0, associated_message_guid := none,
    cache_has_attachments := false, sender := some "+15551234567",
    chat_identifier := some "+15551234567", style := none }

/-- Witness environment: one-row store, no attachments on disk, no contact
matches. -/
def envW : PollEnv :=
  { store := [msgW], attachments := fun _ => [], resolveName := fun _ => none }

/-- Witness environment for a later cycle whose store has gained row 6. -/
def env2W : PollEnv :=
  { store := [msgW, msg6W], attachments := fun _ => [], resolveName := fun _ => none }

/-- Witness state: watermark 4, empty dedup window. -/
def stW : PollState := { lastRowId := 4, processedIds := [] }

/-- Witness state positioned after row 5 was processed. -/
def st5W : PollState := { lastRowId := 5, processedIds := [5] }

/-- Witness allowlist. -/
def afW : List String := ["+15551234567"]

/-- The event the witness scenario delivers for row 5. -/
def evW : InboundEvent :=
  { rowid := 5, body := "hi", rawBody := "hi",
    fromId := "imessage-legacy:+15551234567", toId := "+15551234567",
    sessionKey := "agent:main:main", chatType := "direct",
    conversationLabel := "+15551234567", senderName := "+15551234567",
    senderId := "+15551234567", mediaPaths := [] }

/-- The event the witness scenario delivers for row 6. -/
def ev2W : InboundEvent :=
  { rowid := 6, body := "yo", rawBody := "yo",
    fromId := "imessage-legacy:+15551234567", toId := "+15551234567",
    sessionKey := "agent:main:main", chatType := "direct",
    conversationLabel := "+15551234567", senderName := "+15551234567",
    senderId := "+15551234567", mediaPaths := [] }

/-- Witness account configuration with an empty allowlist. -/
def cfgW : AccountConfig :=
  { pollIntervalMs := 1000, dmPolicy := "open", allowFrom := [],
    includeTapbacks := true, resolveContactNames := true }

/-- Witness tapback row: a Love reaction to the guid of the row-5 message. -/
def tapW : Msg :=
  { rowid := 7, guid := "g7", text := none, is_from_me := 0,
    associated_message_type := 2000, associated_message_guid := some "g5",
    cache_has_attachments := false, sender := some "+15551234567",
    chat_identifier := some "+15551234567", style := none }

/-- Witness instance that claimed the lease first. -/
def instAW : Instance :=
  { instanceId := "ab12", running := true, timerSet := true, dbOpen := true,
    contactsOpen := true, contactCacheSize := 3 }

/-- Witness instance that claimed the lease second. -/
def instBW : Instance :=
  { instanceId := "cd34", running := true, timerSet := true, dbOpen := true,
    contactsOpen := false, contactCacheSize := 0 }

/-- Witness lease value before either claim. -/
def leaseW : Lease := { value := none }

/-- Witness address-book record. -/
def bookRecW : ContactRecord :=
  { zfullnumber := "+15551234567", zfirstname := some "Ada",
    zlastname := some "Lovelace", zorganization := none }

/-- Witness address book. -/
def bookW : List ContactRecord := [bookRecW]

theorem processRow_cases (af : List String) (inc : Bool) (store : List Msg)
    (acc : PollState × List (Msg × Option String)) (m : Msg) :
    (processRow af inc store acc m).1.lastRowId = max acc.1.lastRowId m.rowid ∧
    ((processRow af inc store acc m).1.processedIds = acc.1.processedIds ∨
      (processRow af inc store acc m).1.processedIds = acc.1.processedIds ++ [m.rowid]) ∧
    ((processRow af inc store acc m).2 = acc.2 ∨
      ∃ tb, (processRow af inc store acc m).2 = acc.2 ++ [(m, tb)] ∧
        m.rowid ∉ acc.1.processedIds ∧ RowCond af inc store (m, tb)) := by
  unfold processRow watermarkStep
  rcases hm : m.sender with _ | s
  · simp
  · repeat' split
    all_goals simp_all [RowCond, List.elem_iff]
    all_goals split_ifs with hdd
    all_goals simp_all

theorem le_foldl_maxRow (l : List Msg) (a : Nat) :
    a ≤ l.foldl (fun x m => max x m.rowid) a := by
  induction l generalizing a with
  | nil => exact Nat.le_refl a
  | cons m ms ih => exact Nat.le_trans (Nat.le_max_left a m.rowid) (ih (max a m.rowid))

theorem mem_le_foldl_maxRow (l : List Msg) (a : Nat) (m : Msg) (hm : m ∈ l) :
    m.rowid ≤ l.foldl (fun x m => max x m.rowid) a := by
  induction l generalizing a with
  | nil => cases hm
  | cons x xs ih =>
    rcases List.mem_cons.mp hm with h | h
    · subst h
      exact Nat.le_trans (Nat.le_max_right a m.rowid) (le_foldl_maxRow xs (max a m.rowid))
    · exact ih (max a x.rowid) h

theorem foldl_processRow_lastRowId (af : List String) (inc : Bool) (store : List Msg)
    (msgs : List Msg) (acc : PollState × List (Msg × Option String)) :
    (msgs.foldl (processRow af inc store) acc).1.lastRowId =
      msgs.foldl (fun a m => max a m.rowid) acc.1.lastRowId := by
  induction msgs generalizing acc with
  | nil => rfl
  | cons m ms ih =>
    simp only [List.foldl_cons]
    rw [ih]
    congr 1
    exact (processRow_cases af inc store acc m).1

theorem foldl_processRow_processedIds_mono (af : List String) (inc : Bool) (store : List Msg)
    (msgs : List Msg) (acc : PollState × List (Msg × Option String)) (x : Nat)
    (hx : x ∈ acc.1.processedIds) :
    x ∈ (msgs.foldl (processRow af inc store) acc).1.processedIds := by
  induction msgs generalizing acc with
  | nil => exact hx
  | cons m ms ih =>
    simp only [List.foldl_cons]
    refine ih (processRow af inc store acc m) ?_
    rcases (processRow_cases af inc store acc m).2.1 with h | h
    · rw [h]; exact hx
    · rw [h]; exact List.mem_append_left _ hx

theorem foldl_processRow_snd_spec (af : List String) (inc : Bool) (store : List Msg)
    (msgs : List Msg) (acc : PollState × List (Msg × Option String))
    (p : Msg × Option String) (hp : p ∈ (msgs.foldl (processRow af inc store) acc).2) :
    p ∈ acc.2 ∨ (p.1 ∈ msgs ∧ RowCond af inc store p) := by
  induction msgs generalizing acc with
  | nil => exact Or.inl hp
  | cons m ms ih =>
    simp only [List.foldl_cons] at hp
    rcases ih (processRow af inc store acc m) hp with h | h
    · rcases (processRow_cases af inc store acc m).2.2 with h2 | ⟨tb, h2, _, hrc⟩
      · rw [h2] at h; exact Or.inl h
      · rw [h2] at h
        rcases List.mem_append.mp h with h3 | h3
        · exact Or.inl h3
        · rcases List.mem_singleton.mp h3 with rfl
          exact Or.inr ⟨List.mem_cons_self m ms, hrc⟩
    · exact Or.inr ⟨List.mem_cons_of_mem m h.1, h.2⟩

theorem foldl_processRow_dedup (af : List String) (inc : Bool) (store : List Msg)
    (msgs : List Msg) (acc : PollState × List (Msg × Option String)) (x : Nat)
    (hx : x ∈ acc.1.processedIds) (hacc : ∀ p ∈ acc.2, p.1.rowid ≠ x) :
    ∀ p ∈ (msgs.foldl (processRow af inc store) acc).2, p.1.rowid ≠ x := by
  induction msgs generalizing acc with
  | nil => exact hacc
  | cons m ms ih =>
    simp only [List.foldl_cons]
    refine ih (processRow af inc store acc m) ?_ ?_
    · rcases (processRow_cases af inc store acc m).2.1 with h | h
      · rw [h]; exact hx
      · rw [h]; exact List.mem_append_left _ hx
    · rcases (processRow_cases af inc store acc m).2.2 with h2 | ⟨tb, h2, hnp, _⟩
      · rw [h2]; exact hacc
      · rw [h2]
        intro p hp
        rcases List.mem_append.mp hp with h3 | h3
        · exact hacc p h3
        · rcases List.mem_singleton.mp h3 with rfl
          intro hEq
          exact hnp (hEq ▸ hx)

theorem buildEvent_some (env : PollEnv) (rn : Bool) (p : Msg × Option String)
    (e : InboundEvent) (h : buildEvent env rn p = some e) :
    e = eventOf env rn p := by
  unfold buildEvent at h
  split at h
  · exact absurd h (by simp)
  · exact (Option.some.injEq _ _ ▸ h).symm

theorem eventOf_fields (env : PollEnv) (rn : Bool) (p : Msg × Option String) :
    (eventOf env rn p).rowid = p.1.rowid ∧
      (eventOf env rn p).senderId = p.1.sender.getD "" ∧
      (eventOf env rn p).body = jsOr p.2 (jsOr p.1.text "") := ⟨rfl, rfl, rfl⟩

theorem mem_queryNewRows (store : List Msg) (w : Nat) (m : Msg)
    (h : m ∈ queryNewRows store w) : m ∈ store ∧ w < m.rowid ∧ m.is_from_me = 0 := by
  unfold queryNewRows at h
  have h1 := List.take_subset _ _ h
  have h2 := List.mem_filter.mp h1
  refine ⟨h2.1, ?_, ?_⟩
  · exact (of_decide_eq_true h2.2).1
  · exact (of_decide_eq_true h2.2).2

theorem runBatch_snd_lastRowId (env : PollEnv) (af : List String) (inc rn : Bool)
    (st : PollState) (msgs : List Msg) :
    (runBatch env af inc rn st msgs).2.lastRowId =
      msgs.foldl (fun a m => max a m.rowid) st.lastRowId :=
  foldl_processRow_lastRowId af inc env.store msgs (st, [])

theorem mem_runBatch_events (env : PollEnv) (af : List String) (inc rn : Bool)
    (st : PollState) (msgs : List Msg) (e : InboundEvent)
    (he : e ∈ (runBatch env af inc rn st msgs).1) :
    ∃ p, p.1 ∈ msgs ∧ RowCond af inc env.store p ∧ e = eventOf env rn p := by
  obtain ⟨p, hp, hbe⟩ := List.mem_filterMap.mp he
  rcases foldl_processRow_snd_spec af inc env.store msgs (st, []) p hp with h | h
  · cases h
  · exact ⟨p, h.1, h.2, buildEvent_some env rn p e hbe⟩

theorem runBatch_dedup (env : PollEnv) (af : List String) (inc rn : Bool)
    (st : PollState) (msgs : List Msg) (x : Nat) (hx : x ∈ st.processedIds) :
    ∀ e ∈ (runBatch env af inc rn st msgs).1, e.rowid ≠ x := by
  intro e he
  obtain ⟨p, hp, hbe⟩ := List.mem_filterMap.mp he
  have hne := foldl_processRow_dedup af inc env.store msgs (st, []) x hx
    (by intro p hp; cases hp) p hp
  have hev := buildEvent_some env rn p e hbe
  rw [hev]
  exact hne

theorem pollTick_events_spec (env : PollEnv) (af : List String) (inc rn : Bool)
    (st : PollState) (e : InboundEvent) (he : e ∈ (pollTick env af inc rn st).1) :
    ∃ p, p.1 ∈ queryNewRows env.store st.lastRowId ∧ RowCond af inc env.store p ∧
      e = eventOf env rn p := by
  unfold pollTick at he
  split at he
  · exact mem_runBatch_events env af inc rn st _ e he
  · cases he

theorem pollTick_lastRowId_ge (env : PollEnv) (af : List String) (inc rn : Bool)
    (st : PollState) : st.lastRowId ≤ (pollTick env af inc rn st).2.lastRowId := by
  unfold pollTick
  split
  · rw [runBatch_snd_lastRowId]
    exact le_foldl_maxRow _ _
  · exact Nat.le_refl _

theorem pollTick_query_rowid_le (env : PollEnv) (af : List String) (inc rn : Bool)
    (st : PollState) (m : Msg) (hm : m ∈ queryNewRows env.store st.lastRowId) :
    m.rowid ≤ (pollTick env af inc rn st).2.lastRowId := by
  unfold pollTick
  split
  · rw [runBatch_snd_lastRowId]
    exact mem_le_foldl_maxRow _ _ _ hm
  · next hngt =>
    have h1 := (mem_queryNewRows _ _ _ hm).1
    have h2 := mem_le_foldl_maxRow env.store 0 m h1
    unfold storeMaxId at hngt
    show m.rowid ≤ st.lastRowId
    omega

theorem pollTick_dedup (env : PollEnv) (af : List String) (inc rn : Bool)
    (st : PollState) (x : Nat) (hx : x ∈ st.processedIds) :
    ∀ e ∈ (pollTick env af inc rn st).1, e.rowid ≠ x := by
  intro e he
  unfold pollTick at he
  split at he
  · exact runBatch_dedup env af inc rn st _ x hx e he
  · cases he

/-- Claim C1: at-most-once delivery per row identifier.  First conjunct: an
event delivered by a poll cycle is never re-emitted by a poll run from the
resulting state, whatever store, allowlist or toggles that re-run sees,
because the batch query only returns rows strictly beyond the watermark.
Second conjunct: a row whose identifier is still inside the processedIds
window is skipped before any event is built for it. -/
theorem at_most_once_per_rowid :
    (∀ (env : PollEnv) (af : List String) (inc rn : Bool) (st : PollState) (e : InboundEvent),
      e ∈ (pollTick env af inc rn st).1 →
      ∀ (env2 : PollEnv) (af2 : List String) (inc2 rn2 : Bool) (e2 : InboundEvent),
        e2 ∈ (pollTick env2 af2 inc2 rn2 (pollTick env af inc rn st).2).1 →
        e2.rowid ≠ e.rowid) ∧
    (∀ (env : PollEnv) (af : List String) (inc rn : Bool) (st : PollState) (x : Nat),
      x ∈ st.processedIds → ∀ e ∈ (pollTick env af inc rn st).1, e.rowid ≠ x) := by
  constructor
  · intro env af inc rn st e he env2 af2 inc2 rn2 e2 he2
    obtain ⟨p, hpm, _, hpe⟩ := pollTick_events_spec env af inc rn st e he
    obtain ⟨q, hqm, _, hqe⟩ := pollTick_events_spec env2 af2 inc2 rn2 _ e2 he2
    have h1 : e.rowid ≤ (pollTick env af inc rn st).2.lastRowId := by
      rw [hpe]
      exact pollTick_query_rowid_le env af inc rn st p.1 hpm
    have h2 := (mem_queryNewRows _ _ _ hqm).2.1
    rw [hqe]
    show q.1.rowid ≠ e.rowid
    omega
  · exact pollTick_dedup

/-- Claim C2: watermark monotonicity.  The in-memory lastRowId never
decreases across a tick, after a tick it is at least the row identifier of
every row the batch query returned (filtered or not), and it is
non-decreasing along any sequence of poll cycles. -/
theorem watermark_monotone :
    (∀ (env : PollEnv) (af : List String) (inc rn : Bool) (st : PollState),
      st.lastRowId ≤ (pollTick env af inc rn st).2.lastRowId) ∧
    (∀ (env : PollEnv) (af : List String) (inc rn : Bool) (st : PollState) (m : Msg),
      m ∈ queryNewRows env.store st.lastRowId →
      m.rowid ≤ (pollTick env af inc rn st).2.lastRowId) ∧
    (∀ (cycles : List (PollEnv × List String × Bool × Bool)) (st : PollState),
      st.lastRowId ≤ (runCycles cycles st).lastRowId) := by
  refine ⟨pollTick_lastRowId_ge, pollTick_query_rowid_le, ?_⟩
  intro cycles
  induction cycles with
  | nil => exact fun st => Nat.le_refl _
  | cons c cs ih =>
    intro st
    exact Nat.le_trans (pollTick_lastRowId_ge c.1 c.2.1 c.2.2.1 c.2.2.2 st)
      (ih ((pollTick c.1 c.2.1 c.2.2.1 c.2.2.2 st).2))

theorem at_most_once_per_rowid_witness : ev2W.rowid ≠ evW.rowid :=
  at_most_once_per_rowid.1 envW afW true true stW evW (by decide)
    env2W afW true true ev2W (by decide)

theorem watermark_monotone_witness :
    msg6W.rowid ≤ (pollTick env2W afW true true st5W).2.lastRowId :=
  watermark_monotone.2.1 env2W afW true true st5W msg6W (by decide)

theorem isAllowed_nil (sender : String) : isAllowed sender [] = false := by
  unfold isAllowed
  simp

theorem pollTick_events_allowed (env : PollEnv) (af : List String) (inc rn : Bool)
    (st : PollState) (e : InboundEvent) (he : e ∈ (pollTick env af inc rn st).1) :
    isAllowed e.senderId af = true := by
  obtain ⟨p, _, hrc, hpe⟩ := pollTick_events_spec env af inc rn st e he
  obtain ⟨s, hs, _, hsa⟩ := hrc.1
  rw [hpe]
  show isAllowed (p.1.sender.getD "") af = true
  rw [hs]
  exact hsa

/-- Claim C3: no backlog replay on cold start.  When the persisted state is
missing or unparsable (none) or its lastRowId field is absent or zero,
startup sets the watermark to the current maximum row identifier of the
store, and the first poll over that same store emits no events; loadState
is total, so a corrupt state file is never fatal. -/
theorem cold_start_no_replay :
    ∀ (parsed : Option RawState) (env : PollEnv) (af : List String) (inc rn : Bool),
      (parsed = none ∨ ∃ r, parsed = some r ∧ r.lastRowId.getD 0 = 0) →
      (loadState parsed (storeMaxId env.store)).lastRowId = storeMaxId env.store ∧
      (pollTick env af inc rn (loadState parsed (storeMaxId env.store))).1 = [] := by
  intro parsed env af inc rn h
  have h1 : (loadState parsed (storeMaxId env.store)).lastRowId = storeMaxId env.store := by
    unfold loadState
    rcases h with rfl | ⟨r, rfl, hr⟩
    · rfl
    · simp [hr]
  refine ⟨h1, ?_⟩
  unfold pollTick
  rw [h1]
  simp

theorem cold_start_no_replay_witness :
    (loadState none (storeMaxId envW.store)).lastRowId = storeMaxId envW.store ∧
      (pollTick envW afW true true (loadState none (storeMaxId envW.store))).1 = [] :=
  cold_start_no_replay none envW afW true true (Or.inl rfl)

/-- Claim C4: allowlist enforcement.  A sender that matches no entry of a
non-wildcard allowlist, neither verbatim nor after normalizing both sides,
fails isAllowed, and no poll tick over any store, state or toggles emits an
event carrying that sender; a list containing the literal star admits every
truthy sender; the empty list rejects every sender. -/
theorem allowlist_enforcement :
    ∀ (sender : String) (af : List String),
      (("*" ∉ af) → (∀ a ∈ af, a ≠ sender ∧ normalizePhone a ≠ normalizePhone sender) →
        isAllowed sender af = false ∧
        ∀ (env : PollEnv) (inc rn : Bool) (st : PollState),
          ∀ e ∈ (pollTick env af inc rn st).1, e.senderId ≠ sender) ∧
      ("*" ∈ af → sender ≠ "" → isAllowed sender af = true) ∧
      (af = [] → isAllowed sender af = false) := by
  intro sender af
  refine ⟨?_, ?_, ?_⟩
  · intro hstar hmatch
    have hfalse : isAllowed sender af = false := by
      unfold isAllowed
      split_ifs with h1 h2
      · rfl
      · exact absurd (List.elem_iff.mp h2) hstar
      · rw [List.any_eq_false]
        intro a ha
        simp only [decide_eq_true_eq]
        rintro (h | ⟨_, h⟩)
        · exact (hmatch a ha).1 h
        · exact (hmatch a ha).2 h
    refine ⟨hfalse, ?_⟩
    intro env inc rn st e he hEq
    have hall := pollTick_events_allowed env af inc rn st e he
    rw [hEq, hfalse] at hall
    cases hall
  · intro hstar hsender
    unfold isAllowed
    split_ifs with h1 h2
    · rcases h1 with h1 | h1
      · exact absurd h1 hsender
      · rw [h1] at hstar
        cases hstar
    · rfl
    · exact absurd (List.elem_iff.mpr hstar) h2
  · intro h
    subst h
    exact isAllowed_nil sender

theorem allowlist_enforcement_witness : isAllowed "+19998887777" afW = false :=
  ((allowlist_enforcement "+19998887777" afW).1 (by decide) (by decide)).1

/-- Claim C10: noninterference of dmPolicy.  The poll path never reads the
configured dmPolicy, so two configurations differing only in that field
produce the same events and the same state on every tick; with an empty
allowFrom the tick emits nothing, whatever the dmPolicy says. -/
theorem dmPolicy_noninterference :
    ∀ (cfg : AccountConfig) (d : String) (env : PollEnv) (st : PollState),
      accountPollTick { cfg with dmPolicy := d } env st = accountPollTick cfg env st ∧
      (cfg.allowFrom = [] → (accountPollTick cfg env st).1 = []) := by
  intro cfg d env st
  refine ⟨rfl, ?_⟩
  intro h
  rw [List.eq_nil_iff_forall_not_mem]
  intro e he
  unfold accountPollTick at he
  have haf : startAllowFrom cfg = [] := by
    unfold startAllowFrom
    rw [h]
    rfl
  rw [haf] at he
  have hall := pollTick_events_allowed env [] cfg.includeTapbacks cfg.resolveContactNames st e he
  rw [isAllowed_nil] at hall
  cases hall

theorem dmPolicy_noninterference_witness : (accountPollTick cfgW envW stW).1 = [] :=
  (dmPolicy_noninterference cfgW "disabled" envW stW).2 rfl

theorem isBlank_empty : isBlank "" = true := rfl

theorem ne_empty_of_not_blank (s : String) (h : isBlank s = false) : s ≠ "" := by
  intro hc
  subst hc
  cases h.symm.trans isBlank_empty

theorem isBlank_append (a b : String) : isBlank (a ++ b) = (isBlank a && isBlank b) := by
  unfold isBlank
  show (a.data ++ b.data).all _ = _
  exact List.all_append

theorem isBlank_tapbackBody (store : List Msg) (m : Msg) (emoji : String)
    (h : isBlank emoji = false) : isBlank (tapbackBody store m emoji) = false := by
  unfold tapbackBody
  simp [isBlank_append, h]

theorem runBatch_singleton_empty (env : PollEnv) (af : List String) (inc rn : Bool)
    (st : PollState) (m : Msg)
    (h : (processRow af inc env.store (st, []) m).2 = []) :
    (runBatch env af inc rn st [m]).1 = [] := by
  unfold runBatch scanBatch
  simp only [List.foldl]
  rw [h]
  rfl

/-- Claim C6: tapback mapping.  A row of association type 2000 that passes
the sender, allowlist and dedup filters, with tapbacks enabled, yields
exactly one event whose body is the fixed emoji for 2000 followed by the
reacted-to quotation of the original text, or of the word message when the
original cannot be resolved; a row in the removal range 3000-3999 yields no
event, and neither does a row of an unmapped reaction type. -/
theorem tapback_mapping :
    (∀ (env : PollEnv) (af : List String) (rn : Bool) (st : PollState) (m : Msg) (s : String),
      m.sender = some s → s ≠ "" → isAllowed s af = true →
      m.rowid ∉ st.processedIds → m.associated_message_type = 2000 →
      ∃ e, (runBatch env af true rn st [m]).1 = [e] ∧ e.rowid = m.rowid ∧
        e.body = (TAPBACK_TYPES 2000).getD "" ++ " reacted to: \"" ++
          (getReplyContextText env.store m.associated_message_guid).getD "message" ++ "\"") ∧
    (∀ (env : PollEnv) (af : List String) (inc rn : Bool) (st : PollState) (m : Msg),
      3000 ≤ m.associated_message_type → m.associated_message_type < 4000 →
      (runBatch env af inc rn st [m]).1 = []) ∧
    (∀ (env : PollEnv) (af : List String) (inc rn : Bool) (st : PollState) (m : Msg),
      2000 ≤ m.associated_message_type → m.associated_message_type < 4000 →
      TAPBACK_TYPES m.associated_message_type = none →
      (runBatch env af inc rn st [m]).1 = []) := by
  refine ⟨?_, ?_, ?_⟩
  · intro env af rn st m s hm hs hsa hnp hamt
    have hheart : TAPBACK_TYPES m.associated_message_type = some "â¤ï¸" := by
      rw [hamt]
      rfl
    have hpr : processRow af true env.store (st, []) m =
        ({ lastRowId := max st.lastRowId m.rowid, processedIds := st.processedIds ++ [m.rowid] },
          [(m, some (tapbackBody env.store m "â¤ï¸"))]) := by
      unfold processRow watermarkStep
      rw [hm]
      simp [hs, hsa, List.elem_iff, hnp, hamt, TAPBACK_TYPES]
    have hblank : isBlank (tapbackBody env.store m "â¤ï¸") = false :=
      isBlank_tapbackBody env.store m _ rfl
    refine ⟨eventOf env rn (m, some (tapbackBody env.store m "â¤ï¸")), ?_, rfl, ?_⟩
    · unfold runBatch scanBatch
      simp only [List.foldl]
      rw [hpr]
      show List.filterMap _ [(m, some (tapbackBody env.store m "â¤ï¸"))] = _
      rw [List.filterMap_cons]
      have hbe : buildEvent env rn (m, some (tapbackBody env.store m "â¤ï¸")) =
          some (eventOf env rn (m, some (tapbackBody env.store m "â¤ï¸"))) := by
        unfold buildEvent
        have hbody : msgBodyText (m, some (tapbackBody env.store m "â¤ï¸")) =
            tapbackBody env.store m "â¤ï¸" := by
          unfold msgBodyText jsOr
          simp [ne_empty_of_not_blank _ hblank]
        rw [hbody]
        simp [hblank]
      rw [hbe]
      rfl
    · show msgBodyText (m, some (tapbackBody env.store m "â¤ï¸")) = _
      unfold msgBodyText jsOr
      simp only [ne_empty_of_not_blank _ hblank, if_neg]
      rfl
  · intro env af inc rn st m h3 h4
    rcases (processRow_cases af inc env.store (st, []) m).2.2 with h | ⟨tb, _, _, hrc⟩
    · exact runBatch_singleton_empty env af inc rn st m h
    · exfalso
      dsimp only [RowCond] at hrc
      rcases hrc.2 with ⟨_, _, _, h5, _⟩ | ⟨h5, _⟩
      · omega
      · exact h5 ⟨by omega, h4⟩
  · intro env af inc rn st m h2 h4 hT
    rcases (processRow_cases af inc env.store (st, []) m).2.2 with h | ⟨tb, _, _, hrc⟩
    · exact runBatch_singleton_empty env af inc rn st m h
    · exfalso
      dsimp only [RowCond] at hrc
      rcases hrc.2 with ⟨_, _, _, _, emoji, hsome, _⟩ | ⟨h5, _⟩
      · rw [hT] at hsome
        cases hsome
      · exact h5 ⟨h2, h4⟩

theorem tapback_mapping_witness :
    ∃ e, (runBatch envW afW true true stW [tapW]).1 = [e] ∧ e.rowid = tapW.rowid ∧
      e.body = (TAPBACK_TYPES 2000).getD "" ++ " reacted to: \"" ++
        (getReplyContextText envW.store tapW.associated_message_guid).getD "message" ++ "\"" :=
  tapback_mapping.1 envW afW true stW tapW "+15551234567" rfl (by decide) (by decide)
    (by decide) rfl

/-- Claim C5: arbiter bounded overlap.  After instance A claims the lease
and instance B claims it afterwards, A is no longer the active instance,
and the very next control tick of a running A runs cleanup, which stops it,
cancels its timer, closes its message-store and contacts handles, clears
its contact cache, and schedules no further tick. -/
theorem arbiter_bounded_overlap :
    ∀ (lease0 : Lease) (a b : Instance),
      a.running = true → jsTrim b.instanceId = b.instanceId →
      a.instanceId ≠ b.instanceId →
      isActiveInstance (claimActiveInstance (claimActiveInstance lease0 a.instanceId)
          b.instanceId) a.instanceId = false ∧
      tickControl (claimActiveInstance (claimActiveInstance lease0 a.instanceId)
          b.instanceId) a = (cleanup a, false) ∧
      (cleanup a).running = false ∧ (cleanup a).timerSet = false ∧
      (cleanup a).dbOpen = false ∧ (cleanup a).contactsOpen = false ∧
      (cleanup a).contactCacheSize = 0 := by
  intro lease0 a b ha htrim hne
  have hact : isActiveInstance (claimActiveInstance (claimActiveInstance lease0 a.instanceId)
      b.instanceId) a.instanceId = false := by
    show decide (jsTrim b.instanceId = a.instanceId) = false
    rw [htrim]
    exact decide_eq_false (Ne.symm hne)
  have hclean : cleanup a =
      { a with running := false, timerSet := false, dbOpen := false,
               contactsOpen := false, contactCacheSize := 0 } := by
    unfold cleanup
    rw [ha]
    rfl
  refine ⟨hact, ?_, ?_, ?_, ?_, ?_, ?_⟩
  · unfold tickControl
    rw [ha, hact]
    rfl
  all_goals rw [hclean]

theorem arbiter_bounded_overlap_witness :
    isActiveInstance (claimActiveInstance (claimActiveInstance leaseW instAW.instanceId)
        instBW.instanceId) instAW.instanceId = false ∧
      tickControl (claimActiveInstance (claimActiveInstance leaseW instAW.instanceId)
          instBW.instanceId) instAW = (cleanup instAW, false) ∧
      (cleanup instAW).running = false ∧ (cleanup instAW).timerSet = false ∧
      (cleanup instAW).dbOpen = false ∧ (cleanup instAW).contactsOpen = false ∧
      (cleanup instAW).contactCacheSize = 0 :=
  arbiter_bounded_overlap leaseW instAW instBW rfl (by decide) (by decide)

/-- Claim C7 as stated is false: with the state file holding the rendering
of watermark 5, persisting watermark 6 passes through the crash-observable
empty file left by the truncating open of fs.writeFileSync, which is
neither the complete old value nor the complete new value. -/
theorem persist_atomicity_counterexample :
    ¬ (∀ s ∈ persistCrashStates (stateJson { lastRowId := 5, processedIds := [] })
          { lastRowId := 6, processedIds := [] },
        s = stateJson { lastRowId := 5, processedIds := [] } ∨
        s = stateJson { lastRowId := 6, processedIds := [] }) := by
  decide

/-- Claim C7 (amended): persisting the watermark is a single direct
overwrite of the state file with the rendered JSON, not a
write-to-temp-then-rename; a crash mid-write can therefore leave any
prefix of the new contents (including the empty file), while a completed
write leaves exactly the new contents. -/
theorem persist_overwrite_behavior :
    ∀ (old : String) (st : PollState),
      (persistCrashStates old st).getLast? = some (stateJson st) ∧
      ∀ s ∈ persistCrashStates old st,
        s = old ∨ s.data.isPrefixOf (stateJson st).data = true := by
  intro old st
  constructor
  · unfold persistCrashStates writeFileSyncCrashStates
    rw [List.range_succ, List.map_append]
    simp only [List.map_cons, List.map_nil]
    rw [← List.cons_append, List.getLast?_concat]
    rw [List.take_length]
    rfl
  · intro s hs
    unfold persistCrashStates writeFileSyncCrashStates at hs
    rcases List.mem_cons.mp hs with h | h
    · exact Or.inl h
    · obtain ⟨k, _, hk⟩ := List.mem_map.mp h
      refine Or.inr ?_
      rw [← hk]
      show ((stateJson st).data.take k).isPrefixOf (stateJson st).data = true
      rw [List.isPrefixOf_iff_prefix]
      exact List.take_prefix k (stateJson st).data

theorem persist_overwrite_behavior_witness :
    (persistCrashStates "x" { lastRowId := 6, processedIds := [] }).getLast? =
        some (stateJson { lastRowId := 6, processedIds := [] }) ∧
      ("" = "x" ∨ "".data.isPrefixOf (stateJson { lastRowId := 6, processedIds := [] }).data
        = true) :=
  ⟨(persist_overwrite_behavior "x" { lastRowId := 6, processedIds := [] }).1,
    (persist_overwrite_behavior "x" { lastRowId := 6, processedIds := [] }).2 "" (by decide)⟩

/-- Claim C8 as stated is false: resolving a number that the address book
does not know queries the book (third component true), caches nothing, and
a subsequent resolution of the same number queries the book again. -/
theorem contact_negative_cache_counterexample :
    (resolveContactName [] [] "+15551234567").1 = none ∧
      (resolveContactName [] [] "+15551234567").2.1 = [] ∧
      (resolveContactName [] [] "+15551234567").2.2 = true ∧
      (resolveContactName [] (resolveContactName [] [] "+15551234567").2.1
          "+15551234567").2.2 = true := by
  decide

/-- Claim C8 (amended): on a cache miss the resolver queries the address
book by matching the trailing seven digits, and caches the result only
when the lookup produced a truthy name, so a successfully resolved number
is afterwards served from the cache without a query, while a number whose
lookup found no name leaves the cache unchanged and is queried again on
every subsequent resolution. -/
theorem contact_resolution_caching :
    ∀ (book : List ContactRecord) (cache : List (String × String)) (phone : String)
      (r : ContactRecord) (name : String),
      phone ≠ "" → cache.lookup (contactCacheKey phone) = none →
      (lookupContact book (last7Digits phone) = some r →
        contactDisplayName r = some name →
        resolveContactName book cache phone =
          (some name, (contactCacheKey phone, name) :: cache, true) ∧
        (resolveContactName book ((contactCacheKey phone, name) :: cache)
            phone).2.2 = false ∧
        (resolveContactName book ((contactCacheKey phone, name) :: cache)
            phone).1 = some name) ∧
      ((resolveContactName book cache phone).1 = none →
        (resolveContactName book cache phone).2.1 = cache ∧
        (resolveContactName book cache phone).2.2 = true) := by
  intro book cache phone r name hphone hmiss
  constructor
  · intro hfound hname
    refine ⟨?_, ?_, ?_⟩
    · unfold resolveContactName
      rw [if_neg hphone]
      simp only [hmiss, hfound, hname]
    · unfold resolveContactName
      rw [if_neg hphone]
      have hlk : ((contactCacheKey phone, name) :: cache).lookup
          (contactCacheKey phone) = some name := by
        simp [List.lookup]
      simp only [hlk]
    · unfold resolveContactName
      rw [if_neg hphone]
      have hlk : ((contactCacheKey phone, name) :: cache).lookup
          (contactCacheKey phone) = some name := by
        simp [List.lookup]
      simp only [hlk]
  · intro hnone
    unfold resolveContactName at hnone ⊢
    rw [if_neg hphone] at hnone ⊢
    simp only [hmiss] at hnone ⊢
    rcases hlk : lookupContact book (last7Digits phone) with _ | r2
    · simp only [hlk] at hnone ⊢
      exact ⟨trivial, trivial⟩
    · simp only [hlk] at hnone ⊢
      rcases hdn : contactDisplayName r2 with _ | nm
      · simp only [hdn] at hnone ⊢
        exact ⟨trivial, trivial⟩
      · simp only [hdn] at hnone
        cases hnone

theorem contact_resolution_caching_witness :
    resolveContactName bookW [] "+15551234567" =
        (some "Ada Lovelace", (contactCacheKey "+15551234567", "Ada Lovelace") :: [], true) ∧
      (resolveContactName bookW ((contactCacheKey "+15551234567", "Ada Lovelace") :: [])
          "+15551234567").2.2 = false ∧
      (resolveContactName bookW ((contactCacheKey "+15551234567", "Ada Lovelace") :: [])
          "+15551234567").1 = some "Ada Lovelace" :=
  (contact_resolution_caching bookW [] "+15551234567" bookRecW "Ada Lovelace"
    (by decide) rfl).1 (by decide) (by decide)

theorem isPhoneChar_plus : isPhoneChar '+' = true := rfl

theorem isPhoneChar_one : isPhoneChar '1' = true := rfl

theorem filter_isPhoneChar_filter (l : List Char) :
    (l.filter isPhoneChar).filter isPhoneChar = l.filter isPhoneChar := by
  simp [List.filter_filter]

theorem normalizePhoneBranch_filter (n : List Char) (h : n.filter isPhoneChar = n) :
    (normalizePhoneBranch n).filter isPhoneChar = normalizePhoneBranch n := by
  unfold normalizePhoneBranch
  split_ifs
  · exact h
  all_goals simp [List.filter_cons, isPhoneChar_plus, isPhoneChar_one, h]

theorem normalizePhoneBranch_head (n : List Char) :
    (normalizePhoneBranch n).head? = some '+' := by
  unfold normalizePhoneBranch
  split_ifs with h1
  · exact h1
  all_goals rfl

theorem normalizePhoneBranch_id (n : List Char) (h : n.head? = some '+') :
    normalizePhoneBranch n = n := by
  unfold normalizePhoneBranch
  rw [if_pos h]

theorem normalizePhoneList_idem (l : List Char) :
    normalizePhoneList (normalizePhoneList l) = normalizePhoneList l := by
  unfold normalizePhoneList
  rw [normalizePhoneBranch_filter _ (filter_isPhoneChar_filter l)]
  exact normalizePhoneBranch_id _ (normalizePhoneBranch_head _)

/-- Claim C9: phone normalization is idempotent.  Normalizing an already
normalized number returns it unchanged, for every input string, including
the null result of a falsy input. -/
theorem normalizePhone_idempotent (p : String) :
    (normalizePhone p).bind normalizePhone = normalizePhone p := by
  unfold normalizePhone
  split_ifs with h
  · rfl
  · show normalizePhone (normalizePhoneList p.data).asString =
      some (normalizePhoneList p.data).asString
    unfold normalizePhone
    split_ifs with h2
    · exfalso
      have hh := congrArg String.data h2
      rw [show ((normalizePhoneList p.data).asString).data = normalizePhoneList p.data
        from rfl] at hh
      rw [show ("" : String).data = [] from rfl] at hh
      have hhead := normalizePhoneBranch_head (p.data.filter isPhoneChar)
      unfold normalizePhoneList at hh
      rw [hh] at hhead
      cases hhead
    · rw [show ((normalizePhoneList p.data).asString).data = normalizePhoneList p.data
        from rfl]
      rw [normalizePhoneList_idem]
